import Mathlib

/-
Shallow embedding of addblobservice.py: a pipeline that fetches a listing of
blob URLs, downloads each blob, extracts text from PDF/DOCX files, scores each
text against a keyword list, and returns the top entries sorted by score.
Network access, PDF parsing and DOCX parsing are modelled as oracle functions
passed in as parameters; everything else is translated line by line.
-/

/-- Python `str.lower()` : lower-case every character. -/
def pyLower (s : String) : String := ⟨s.data.map Char.toLower⟩

/-- Python `str.strip()` : drop whitespace from both ends. -/
def pyStrip (s : String) : String :=
  ⟨((s.data.dropWhile Char.isWhitespace).reverse.dropWhile Char.isWhitespace).reverse⟩

/-- Helper for Python `str.count` with a non-empty pattern: scan left to right,
counting non-overlapping occurrences; after a match, resume after its end.
The fuel argument (instantiated with the haystack length, which always
suffices) keeps the recursion structural. -/
def countFromAux (pat : List Char) : Nat → List Char → Nat
  | 0, _ => 0
  | _, [] => 0
  | fuel + 1, c :: rest =>
    if List.isPrefixOf pat (c :: rest) then
      1 + countFromAux pat fuel (rest.drop (pat.length - 1))
    else countFromAux pat fuel rest

/-- Python `hay.count(pat)` : non-overlapping substring occurrences; the empty
pattern matches at every position, i.e. `len(hay) + 1` times. -/
def pyCount (hay pat : String) : Nat :=
  if pat.data.isEmpty then hay.data.length + 1
  else countFromAux pat.data hay.data.length hay.data

/-- Python `s.endswith(suffix)`. -/
def pyEndswith (s tail : String) : Bool := List.isSuffixOf tail.data s.data

/-- Python `url.split('/')[-1]` : the part of the URL after the last slash. -/
def url_filename (url : String) : String := ⟨(url.data.splitOn '/').getLastD []⟩

/-- Concatenation of a list of strings with no separator, as done by the
`content += piece` loops in the source. -/
def concat_texts (l : List String) : String := ⟨(l.map String.data).flatten⟩

/-- Python list slicing `l[:n]` : for `n ≥ 0` the first `n` elements; for
`n < 0` all but the last `|n|` elements (empty when `|n| ≥ len(l)`). -/
def pySlice (l : List α) (n : Int) : List α :=
  if 0 ≤ n then l.take n.toNat else l.take (l.length - (-n).toNat)

/-- Exceptions of the Python program that matter to the pipeline. -/
inductive PyError where
  | attributeError
  | typeError
  | docxError
  | xmlParseError
deriving DecidableEq

/-- Outcome of one `requests.get` call: a raised `requests.RequestException`,
or a response with a status code and a body. -/
inductive FetchOutcome where
  | exn
  | resp (status : Nat) (content : String)
deriving DecidableEq

instance {ε α : Type} [DecidableEq ε] [DecidableEq α] : DecidableEq (Except ε α)
  | .error e, .error f =>
    if h : e = f then .isTrue (by rw [h]) else .isFalse (by simp [h])
  | .error _, .ok _ => .isFalse (by simp)
  | .ok _, .error _ => .isFalse (by simp)
  | .ok a, .ok b =>
    if h : a = b then .isTrue (by rw [h]) else .isFalse (by simp [h])

/-- `extract_text_from_pdf`: parse the PDF (the oracle `pdfPages` returns the
per-page texts, or `none` when PyPDF2 raises), concatenate the pages, and
return `none` (Python `None`) when parsing failed or the stripped text is
empty. -/
def extract_text_from_pdf (pdfPages : String → Option (List String))
    (content : String) : Option String :=
  match pdfPages content with
  | none => none
  | some pages =>
    let c := concat_texts pages
    if pyStrip c = "" then none else some c

/-- `extract_text_from_docx`: parse the DOCX (the oracle `docxDoc` returns the
paragraph texts, or an error when `Document(...)` raises — the source catches
nothing here) and concatenate the paragraph texts with no separator. -/
def extract_text_from_docx (docxDoc : String → Except Unit (List String))
    (data : String) : Except Unit String :=
  match docxDoc data with
  | .error e => .error e
  | .ok paras => .ok (concat_texts paras)

/-- The summed occurrence count of `calculate_keyword_existence`:
`sum(text.lower().count(keyword.lower()) for keyword in keywords)`. -/
def keyword_count (text : String) (keywords : List String) : Nat :=
  (keywords.map (fun k => pyCount (pyLower text) (pyLower k))).sum

/-- `calculate_keyword_existence`: keyword density score
`kc / (kc + len(keywords))` when `kc > 0`, else `0`. -/
def calculate_keyword_existence (text : String) (keywords : List String) : ℚ :=
  let kc := keyword_count text keywords
  let total := keywords.length
  if 0 < kc then (kc : ℚ) / ((kc : ℚ) + (total : ℚ)) else 0

/-- The score as a function of the raw hit count `c` and the number of
keywords `n`: the arithmetic core of `calculate_keyword_existence`. -/
def existence_of_count (c n : Nat) : ℚ :=
  if 0 < c then (c : ℚ) / ((c : ℚ) + (n : ℚ)) else 0

/-- `fetch_blob_urls`: GET the listing; on a `RequestException` or a non-200
status return `None`; on 200 parse the XML (the oracle `xml` returns the blob
URLs, or an error when `ET.fromstring` raises — that exception is not a
`RequestException` and is not caught). -/
def fetch_blob_urls (get : String → FetchOutcome)
    (xml : String → Except Unit (List String)) (testurl : String) :
    Except PyError (Option (List String)) :=
  match get testurl with
  | .exn => .ok none
  | .resp status content =>
    if status = 200 then
      match xml content with
      | .error _ => .error .xmlParseError
      | .ok urls => .ok (some urls)
    else .ok none

/-- The `for url in urls` loop of `download_files`. The whole loop sits in one
`try` block whose handler catches only `requests.RequestException`: a transport
exception ends the loop and the entries gathered so far are returned, while a
DOCX parsing exception propagates out of the function. A non-200 status just
skips that URL. -/
def download_loop (get : String → FetchOutcome)
    (pdfPages : String → Option (List String))
    (docxDoc : String → Except Unit (List String)) :
    List String → Except PyError (List (String × Option String))
  | [] => .ok []
  | url :: rest =>
    match get url with
    | .exn => .ok []
    | .resp status content =>
      if status = 200 then
        let filename := url_filename url
        if pyEndswith filename ".pdf" then
          (download_loop get pdfPages docxDoc rest).map
            (fun tl => (filename, extract_text_from_pdf pdfPages content) :: tl)
        else if pyEndswith filename ".docx" then
          match extract_text_from_docx docxDoc content with
          | .error _ => .error .docxError
          | .ok text => (download_loop get pdfPages docxDoc rest).map
              (fun tl => (filename, some text) :: tl)
        else download_loop get pdfPages docxDoc rest
      else download_loop get pdfPages docxDoc rest

/-- `download_files`: returns `None` when the URL list is `None`, otherwise
the list built by the download loop. -/
def download_files (get : String → FetchOutcome)
    (pdfPages : String → Option (List String))
    (docxDoc : String → Except Unit (List String)) :
    Option (List String) → Except PyError (Option (List (String × Option String)))
  | none => .ok none
  | some urls => (download_loop get pdfPages docxDoc urls).map some

/-- The scoring comprehension of `process_resume_data`. An entry whose text is
`None` (a failed or empty PDF) makes `text.lower()` raise `AttributeError`,
which nothing catches. -/
def score_all (keywords : List String) :
    List (String × Option String) → Except PyError (List (String × ℚ))
  | [] => .ok []
  | (_, none) :: _ => .error .attributeError
  | (fn, some t) :: rest =>
    (score_all keywords rest).map
      (fun tl => (fn, calculate_keyword_existence t keywords) :: tl)

/-- Comparison used by `sort(key=lambda x: x[1], reverse=True)`: descending by
score. -/
def scoreGe (a b : String × ℚ) : Prop := b.2 ≤ a.2

instance : DecidableRel scoreGe := fun a b => inferInstanceAs (Decidable (b.2 ≤ a.2))

instance : IsTotal (String × ℚ) scoreGe := ⟨fun a b => le_total b.2 a.2⟩

instance : IsTrans (String × ℚ) scoreGe := ⟨fun _ _ _ h1 h2 => le_trans h2 h1⟩

/-- The ranking step of `process_resume_data`: a stable descending sort by
score (Python `list.sort` is stable, also with `reverse=True`) followed by the
slice `[:required_count]`. -/
def rank (scored : List (String × ℚ)) (required_count : Int) : List (String × ℚ) :=
  pySlice (List.insertionSort scoreGe scored) required_count

/-- `process_resume_data`: fetch the listing, download and extract every file,
score each text, sort descending and slice. Iterating over a `None` URL list
in the comprehension raises `TypeError`. The `threshold` argument is accepted
and never used. -/
def process_resume_data (keywords : List String) (required_count : Int)
    (threshold : ℚ) (get : String → FetchOutcome)
    (xml : String → Except Unit (List String))
    (pdfPages : String → Option (List String))
    (docxDoc : String → Except Unit (List String)) (bloburl : String) :
    Except PyError (List (String × ℚ)) :=
  match fetch_blob_urls get xml bloburl with
  | .error e => .error e
  | .ok urlsOpt =>
    match download_files get pdfPages docxDoc urlsOpt with
    | .error e => .error e
    | .ok none => .error .typeError
    | .ok (some resume_data) =>
      match score_all keywords resume_data with
      | .error e => .error e
      | .ok scored => .ok (rank scored required_count)

/-- Concrete network oracle used in the closed-form theorems: a small universe
of blob URLs and listing URLs. -/
def testGet : String → FetchOutcome := fun u =>
  if u = "h/good.pdf" then .resp 200 "PDFGOOD"
  else if u = "h/bad.pdf" then .resp 200 "PDFBAD"
  else if u = "h/empty.pdf" then .resp 200 "PDFEMPTY"
  else if u = "h/good.docx" then .resp 200 "DOCGOOD"
  else if u = "h/empty.docx" then .resp 200 "DOCEMPTY"
  else if u = "h/bad.docx" then .resp 200 "DOCBAD"
  else if u = "h/notes.txt" then .resp 200 "TXT"
  else if u = "h/missing.pdf" then .resp 404 ""
  else if u = "h/down.pdf" then .exn
  else if u = "list_c1" then .resp 200 "L1"
  else if u = "list_c3" then .resp 200 "L3"
  else if u = "list_c9" then .resp 200 "L9"
  else if u = "list_c10" then .resp 200 "L10"
  else .resp 404 ""

/-- Concrete PDF-parsing oracle: one well-formed PDF, one whose pages hold
only whitespace, and everything else malformed. -/
def testPdf : String → Option (List String) := fun c =>
  if c = "PDFGOOD" then some ["the quick brown fox"]
  else if c = "PDFEMPTY" then some [" ", ""]
  else none

/-- Concrete DOCX-parsing oracle: one well-formed DOCX, one whose paragraphs
hold no text, and everything else malformed. -/
def testDocx : String → Except Unit (List String) := fun c =>
  if c = "DOCGOOD" then .ok ["the fox"]
  else if c = "DOCEMPTY" then .ok ["", ""]
  else .error ()

/-- Concrete XML-parsing oracle mapping each listing body to its blob URLs. -/
def testXml : String → Except Unit (List String) := fun c =>
  if c = "L1" then .ok ["h/good.pdf", "h/bad.pdf"]
  else if c = "L3" then .ok ["h/good.pdf", "h/good.docx"]
  else if c = "L9" then .ok ["h/empty.docx"]
  else if c = "L10" then .ok ["h/good.pdf", "h/bad.docx", "h/good.docx"]
  else .error ()

/-- Evaluating the score once the raw hit count is known. -/
theorem calculate_eq_existence (text : String) (keywords : List String) (c : Nat)
    (h : keyword_count text keywords = c) :
    calculate_keyword_existence text keywords = existence_of_count c keywords.length := by
  subst h; rfl

/-- The score is zero exactly when the raw hit count is zero, whatever the
number of keywords. -/
theorem existence_of_count_eq_zero_iff (c n : Nat) : existence_of_count c n = 0 ↔ c = 0 := by
  rcases Nat.eq_zero_or_pos c with hc | hc
  · subst hc; simp [existence_of_count]
  · have h1 : (0:ℚ) < (c:ℚ) := by exact_mod_cast hc
    have h2 : (0:ℚ) < (c:ℚ) + (n:ℚ) := by positivity
    rw [existence_of_count, if_pos hc]
    constructor
    · intro h
      have hpos := div_pos h1 h2
      rw [h] at hpos
      exact absurd hpos (lt_irrefl 0)
    · intro h
      exact absurd h (Nat.pos_iff_ne_zero.mp hc)

/-- C2: for every text and keyword list, the score is `0` exactly when the
summed case-insensitive substring-occurrence count over all keywords is `0`,
and otherwise equals `keywordCount / (keywordCount + len(keywords))`; in
particular the score of "the quick brown fox" against ["the","fox","cat"] is
`2 / (2 + 3) = 2/5 = 0.4`. -/
theorem score_formula_and_example (text : String) (keywords : List String) :
    (calculate_keyword_existence text keywords = 0 ↔ keyword_count text keywords = 0) ∧
    (keyword_count text keywords ≠ 0 →
      calculate_keyword_existence text keywords =
        (keyword_count text keywords : ℚ) /
          ((keyword_count text keywords : ℚ) + (keywords.length : ℚ))) ∧
    calculate_keyword_existence "the quick brown fox" ["the", "fox", "cat"] = 2 / 5 := by
  refine ⟨?_, ?_, ?_⟩
  · rw [calculate_eq_existence text keywords _ rfl]
    exact existence_of_count_eq_zero_iff _ _
  · intro h
    have hpos : 0 < keyword_count text keywords := Nat.pos_of_ne_zero h
    rw [calculate_eq_existence text keywords _ rfl, existence_of_count, if_pos hpos]
  · rw [calculate_eq_existence _ _ 2 (by decide)]
    norm_num [existence_of_count]

/-- Witness for `score_formula_and_example` at a concrete input with a
positive hit count. -/
theorem score_formula_and_example_witness :
    keyword_count "ab" ["b"] ≠ 0 ∧
    calculate_keyword_existence "ab" ["b"] =
      (keyword_count "ab" ["b"] : ℚ) /
        ((keyword_count "ab" ["b"] : ℚ) + (((["b"] : List String)).length : ℚ)) :=
  ⟨by decide, (score_formula_and_example "ab" ["b"]).2.1 (by decide)⟩

/-- C5: the threshold argument of `process_resume_data` is accepted but has no
effect on the result: two runs differing only in the threshold agree. -/
theorem threshold_has_no_effect (keywords : List String) (required_count : Int)
    (t₁ t₂ : ℚ) (get : String → FetchOutcome) (xml : String → Except Unit (List String))
    (pdfPages : String → Option (List String)) (docxDoc : String → Except Unit (List String))
    (bloburl : String) :
    process_resume_data keywords required_count t₁ get xml pdfPages docxDoc bloburl =
      process_resume_data keywords required_count t₂ get xml pdfPages docxDoc bloburl := rfl

/-- C7: with a fixed non-empty keyword list (of length `n ≥ 1`) the score of
`calculate_keyword_existence` factors through the raw hit count, is a strictly
increasing function of that count, is bounded in `[0, 1)`, and is `0` exactly
for a zero hit count. -/
theorem score_monotone_bounded (n : Nat) (hn : 1 ≤ n) :
    (∀ text keywords, keywords.length = n →
      calculate_keyword_existence text keywords =
        existence_of_count (keyword_count text keywords) n) ∧
    (∀ c₁ c₂ : Nat, c₁ < c₂ → existence_of_count c₁ n < existence_of_count c₂ n) ∧
    (∀ c : Nat, 0 ≤ existence_of_count c n ∧ existence_of_count c n < 1) ∧
    (∀ c : Nat, existence_of_count c n = 0 ↔ c = 0) := by
  have hnq : (0:ℚ) < (n:ℚ) := by exact_mod_cast hn
  refine ⟨?_, ?_, ?_, fun c => existence_of_count_eq_zero_iff c n⟩
  · intro text keywords hk
    rw [calculate_eq_existence text keywords _ rfl, hk]
  · intro c₁ c₂ h
    rcases Nat.eq_zero_or_pos c₁ with h1 | h1
    · subst h1
      have h2 : 0 < c₂ := h
      have hq2 : (0:ℚ) < (c₂:ℚ) := by exact_mod_cast h2
      rw [existence_of_count, existence_of_count, if_pos h2, if_neg (lt_irrefl 0)]
      exact div_pos hq2 (by linarith)
    · have h2 : 0 < c₂ := lt_trans h1 h
      have hq1 : (0:ℚ) < (c₁:ℚ) := by exact_mod_cast h1
      have hq12 : (c₁:ℚ) < (c₂:ℚ) := by exact_mod_cast h
      rw [existence_of_count, existence_of_count, if_pos h1, if_pos h2,
        div_lt_div_iff₀ (by linarith) (by linarith)]
      nlinarith [mul_lt_mul_of_pos_right hq12 hnq]
  · intro c
    have hq0 : (0:ℚ) ≤ (c:ℚ) := Nat.cast_nonneg c
    constructor
    · rcases Nat.eq_zero_or_pos c with h | h
      · subst h; simp [existence_of_count]
      · rw [existence_of_count, if_pos h]
        positivity
    · rcases Nat.eq_zero_or_pos c with h | h
      · subst h; norm_num [existence_of_count]
      · rw [existence_of_count, if_pos h, div_lt_one (by linarith)]
        linarith

/-- Witness for `score_monotone_bounded` with one keyword: the score strictly
increases from zero hits to one hit and stays below one at five hits. -/
theorem score_monotone_bounded_witness :
    existence_of_count 0 1 < existence_of_count 1 1 ∧ existence_of_count 5 1 < 1 := by
  obtain ⟨-, hmono, hbound, -⟩ := score_monotone_bounded 1 (by decide)
  exact ⟨hmono 0 1 (by decide), (hbound 5).2⟩
/-- Inserting into a sorted run preserves, for each fixed score, the
subsequence of entries carrying that score: the inserted entry lands in front
of the equal-score entries already present. -/
theorem filter_orderedInsert (s : ℚ) (x : String × ℚ) (l : List (String × ℚ)) :
    (List.orderedInsert scoreGe x l).filter (fun z => decide (z.2 = s)) =
      if x.2 = s then x :: l.filter (fun z => decide (z.2 = s))
      else l.filter (fun z => decide (z.2 = s)) := by
  induction l with
  | nil =>
    rw [List.orderedInsert, List.filter_cons]
    by_cases hx : x.2 = s <;> simp [hx]
  | cons y ys ih =>
    rw [List.orderedInsert]
    by_cases hxy : scoreGe x y
    · rw [if_pos hxy, List.filter_cons, List.filter_cons]
      by_cases hx : x.2 = s <;> simp [hx]
    · rw [if_neg hxy, List.filter_cons, List.filter_cons]
      have hlt : x.2 < y.2 := lt_of_not_le hxy
      by_cases hx : x.2 = s
      · have hy : ¬ (y.2 = s) := by
          intro hys
          rw [← hx] at hys
          exact absurd hys.le (not_le.mpr hlt)
        simp [hx, hy, ih]
      · simp [ih, hx]

/-- The stable descending insertion sort preserves, for each fixed score, the
subsequence of entries carrying that score: ties keep their input order. -/
theorem filter_insertionSort (s : ℚ) (l : List (String × ℚ)) :
    (List.insertionSort scoreGe l).filter (fun z => decide (z.2 = s)) =
      l.filter (fun z => decide (z.2 = s)) := by
  induction l with
  | nil => rfl
  | cons x xs ih =>
    rw [List.insertionSort, filter_orderedInsert, List.filter_cons, ih]
    by_cases hx : x.2 = s <;> simp [hx]

/-- C6: for every scored-document list and non-negative count, the ranked
result is sorted non-increasingly by score, has length `min count length` (so
at most `count`, and everything when fewer than `count` documents exist), and
for each score value the entries carrying it form an initial segment, in input
order, of the input entries carrying it (the sort is stable). -/
theorem rank_sorted_truncated_stable (l : List (String × ℚ)) (count : Int)
    (hc : 0 ≤ count) :
    List.Sorted scoreGe (rank l count) ∧
    (rank l count).length = min count.toNat l.length ∧
    (∀ s : ℚ, ∃ t, (rank l count).filter (fun z => decide (z.2 = s)) ++ t =
      l.filter (fun z => decide (z.2 = s))) := by
  have hslice : rank l count = (List.insertionSort scoreGe l).take count.toNat := by
    rw [rank, pySlice, if_pos hc]
  refine ⟨?_, ?_, ?_⟩
  · rw [hslice]
    exact List.Pairwise.sublist (List.take_sublist _ _) (List.sorted_insertionSort scoreGe l)
  · rw [hslice, List.length_take, (List.perm_insertionSort scoreGe l).length_eq]
  · intro s
    refine ⟨((List.insertionSort scoreGe l).drop count.toNat).filter
      (fun z => decide (z.2 = s)), ?_⟩
    rw [hslice, ← List.filter_append, List.take_append_drop, filter_insertionSort]

/-- Witness for `rank_sorted_truncated_stable` on a three-document list with a
tie, truncated to two entries. -/
theorem rank_sorted_truncated_stable_witness :
    List.Sorted scoreGe (rank [("a", (1:ℚ)), ("b", 2), ("c", 1)] 2) ∧
    (rank [("a", (1:ℚ)), ("b", 2), ("c", 1)] 2).length = min (Int.toNat 2) 3 ∧
    (∃ t, (rank [("a", (1:ℚ)), ("b", 2), ("c", 1)] 2).filter
        (fun z => decide (z.2 = (1:ℚ))) ++ t =
      [("a", (1:ℚ)), ("b", 2), ("c", 1)].filter (fun z => decide (z.2 = (1:ℚ)))) := by
  obtain ⟨h1, h2, h3⟩ :=
    rank_sorted_truncated_stable [("a", (1:ℚ)), ("b", 2), ("c", 1)] 2 (by decide)
  exact ⟨h1, h2, h3 1⟩

/-- C3 amended: for a negative requested count `-k`, the ranking raises no
error and silently returns the descending-sorted sequence with its last
`min k length` entries removed — Python slice semantics for `[:-k]`. -/
theorem negative_count_slices_from_end (l : List (String × ℚ)) (k : Nat) (hk : 0 < k) :
    rank l (-(k : Int)) = (List.insertionSort scoreGe l).take (l.length - k) := by
  have hneg : ¬ (0 ≤ -(k : Int)) := by omega
  have htn : (-(-(k : Int))).toNat = k := by omega
  rw [rank, pySlice, if_neg hneg, htn, (List.perm_insertionSort scoreGe l).length_eq]

/-- Witness for `negative_count_slices_from_end` on a two-document list with
count `-1`. -/
theorem negative_count_slices_from_end_witness :
    rank [("a", (1:ℚ)), ("b", 0)] (-(1 : Nat) : Int) =
      (List.insertionSort scoreGe [("a", (1:ℚ)), ("b", 0)]).take
        ([("a", (1:ℚ)), ("b", 0)].length - 1) :=
  negative_count_slices_from_end [("a", (1:ℚ)), ("b", 0)] 1 (by decide)
/-- C1 (claim refuted by the code): a PDF whose extraction fails or whose
stripped text is empty does become the absence marker `None`, but the marker
is appended to the extracted sequence rather than excluded before scoring, and
scoring it calls `None.lower()`, so the whole request dies with an
`AttributeError` instead of the failure staying non-fatal. -/
theorem pdf_failure_reaches_scoring_and_crashes :
    extract_text_from_pdf testPdf "PDFBAD" = none ∧
    extract_text_from_pdf testPdf "PDFEMPTY" = none ∧
    download_loop testGet testPdf testDocx ["h/good.pdf", "h/bad.pdf"] =
      .ok [("good.pdf", some "the quick brown fox"), ("bad.pdf", none)] ∧
    process_resume_data ["fox"] 5 (1/2) testGet testXml testPdf testDocx "list_c1" =
      .error .attributeError := by
  refine ⟨by decide, by decide, by decide, ?_⟩
  have hf : fetch_blob_urls testGet testXml "list_c1" =
      .ok (some ["h/good.pdf", "h/bad.pdf"]) := by decide
  have hd : download_files testGet testPdf testDocx (some ["h/good.pdf", "h/bad.pdf"]) =
      .ok (some [("good.pdf", some "the quick brown fox"), ("bad.pdf", none)]) := by decide
  have hs : score_all ["fox"] [("good.pdf", some "the quick brown fox"), ("bad.pdf", none)] =
      .error .attributeError := by
    simp [score_all, Except.map]
  simp only [process_resume_data, hf, hd, hs]

/-- C3 counterexample: with a negative requested count the pipeline raises no
error at all — on a listing of two documents that both score `1/2`, a count of
`-1` silently returns the first of them. -/
theorem negative_count_returns_without_error :
    process_resume_data ["fox"] (-1) (1/2) testGet testXml testPdf testDocx "list_c3" =
      .ok [("good.pdf", 1/2)] ∧
    ∀ e : PyError, process_resume_data ["fox"] (-1) (1/2) testGet testXml testPdf testDocx
      "list_c3" ≠ .error e := by
  have hmain : process_resume_data ["fox"] (-1) (1/2) testGet testXml testPdf testDocx
      "list_c3" = .ok [("good.pdf", 1/2)] := by
    have hf : fetch_blob_urls testGet testXml "list_c3" =
        .ok (some ["h/good.pdf", "h/good.docx"]) := by decide
    have hd : download_files testGet testPdf testDocx (some ["h/good.pdf", "h/good.docx"]) =
        .ok (some [("good.pdf", some "the quick brown fox"), ("good.docx", some "the fox")]) := by
      decide
    have hs1 : calculate_keyword_existence "the quick brown fox" ["fox"] = 1/2 := by
      rw [calculate_eq_existence _ _ 1 (by decide)]
      norm_num [existence_of_count]
    have hs2 : calculate_keyword_existence "the fox" ["fox"] = 1/2 := by
      rw [calculate_eq_existence _ _ 1 (by decide)]
      norm_num [existence_of_count]
    have hs : score_all ["fox"] [("good.pdf", some "the quick brown fox"),
        ("good.docx", some "the fox")] = .ok [("good.pdf", 1/2), ("good.docx", 1/2)] := by
      simp [score_all, hs1, hs2, Except.map]
    have hr : rank [("good.pdf", (1:ℚ)/2), ("good.docx", (1:ℚ)/2)] (-1) =
        [("good.pdf", 1/2)] := by
      simp [rank, List.insertionSort, List.orderedInsert, scoreGe, pySlice]
    simp only [process_resume_data, hf, hd, hs, hr]
  exact ⟨hmain, fun e he => by rw [hmain] at he; exact Except.noConfusion he⟩

/-- C4 counterexample: a transport failure on the first URL makes the download
loop return at once, so the second URL — which downloads and extracts fine on
its own — is never processed: the claim that every remaining location is still
processed fails. -/
theorem transport_failure_aborts_batch :
    download_loop testGet testPdf testDocx ["h/down.pdf", "h/good.pdf"] = .ok [] ∧
    download_loop testGet testPdf testDocx ["h/good.pdf"] =
      .ok [("good.pdf", some "the quick brown fox")] :=
  ⟨by decide, by decide⟩

/-- C4 amended: a non-success HTTP status for one document skips only that
document and the batch continues, but a transport failure (a raised
`requests.RequestException`) stops the loop: nothing from the failing location
onwards is processed and the entries gathered so far are returned. -/
theorem per_url_failure_behavior (get : String → FetchOutcome)
    (pdfPages : String → Option (List String)) (docxDoc : String → Except Unit (List String))
    (url : String) (rest : List String) :
    (∀ status content, get url = .resp status content → status ≠ 200 →
      download_loop get pdfPages docxDoc (url :: rest) =
        download_loop get pdfPages docxDoc rest) ∧
    (get url = .exn → download_loop get pdfPages docxDoc (url :: rest) = .ok []) := by
  constructor
  · intro status content hget h200
    simp only [download_loop, hget]
    simp [h200]
  · intro hget
    simp only [download_loop, hget]

/-- Witness for `per_url_failure_behavior`: a 404 on the first URL only skips
that URL. -/
theorem per_url_failure_behavior_witness :
    download_loop testGet testPdf testDocx ["h/missing.pdf", "h/good.pdf"] =
      download_loop testGet testPdf testDocx ["h/good.pdf"] :=
  (per_url_failure_behavior testGet testPdf testDocx "h/missing.pdf" ["h/good.pdf"]).1
    404 "" (by decide) (by decide)

/-- C8: the format of a successfully downloaded document is inferred from the
trailing extension of the filename taken from the URL: `.pdf` goes through the
PDF extractor, (not `.pdf` but) `.docx` through the DOCX extractor, and any
other extension yields no entry and no error — the loop just moves on. -/
theorem extension_dispatch (get : String → FetchOutcome)
    (pdfPages : String → Option (List String)) (docxDoc : String → Except Unit (List String))
    (url : String) (rest : List String) (content : String)
    (hget : get url = .resp 200 content) :
    (pyEndswith (url_filename url) ".pdf" = true →
      download_loop get pdfPages docxDoc (url :: rest) =
        (download_loop get pdfPages docxDoc rest).map
          (fun tl => (url_filename url, extract_text_from_pdf pdfPages content) :: tl)) ∧
    (pyEndswith (url_filename url) ".pdf" = false →
      pyEndswith (url_filename url) ".docx" = true →
      ∀ text, extract_text_from_docx docxDoc content = .ok text →
        download_loop get pdfPages docxDoc (url :: rest) =
          (download_loop get pdfPages docxDoc rest).map
            (fun tl => (url_filename url, some text) :: tl)) ∧
    (pyEndswith (url_filename url) ".pdf" = false →
      pyEndswith (url_filename url) ".docx" = false →
      download_loop get pdfPages docxDoc (url :: rest) =
        download_loop get pdfPages docxDoc rest) := by
  refine ⟨?_, ?_, ?_⟩
  · intro hpdf
    simp only [download_loop, hget]
    simp [hpdf]
  · intro hpdf hdocx text htext
    simp only [download_loop, hget]
    simp [hpdf, hdocx, htext]
  · intro hpdf hdocx
    simp only [download_loop, hget]
    simp [hpdf, hdocx]

/-- Witness for `extension_dispatch`: a `.txt` entry produces no entry and no
error. -/
theorem extension_dispatch_witness :
    download_loop testGet testPdf testDocx ["h/notes.txt"] =
      download_loop testGet testPdf testDocx [] :=
  (extension_dispatch testGet testPdf testDocx "h/notes.txt" [] "TXT" (by decide)).2.2
    (by decide) (by decide)

/-- C10: a malformed DOCX raises out of the download loop (its handler catches
only transport errors), losing even the entries gathered so far and killing
the whole request, while a malformed PDF in the same position is converted to
the absence marker and the loop continues with the remaining documents. -/
theorem malformed_docx_fatal_unlike_pdf :
    download_loop testGet testPdf testDocx ["h/good.pdf", "h/bad.docx", "h/good.docx"] =
      .error .docxError ∧
    process_resume_data ["fox"] 5 (1/2) testGet testXml testPdf testDocx "list_c10" =
      .error .docxError ∧
    download_loop testGet testPdf testDocx ["h/good.pdf", "h/bad.pdf", "h/good.docx"] =
      .ok [("good.pdf", some "the quick brown fox"), ("bad.pdf", none),
        ("good.docx", some "the fox")] := by
  refine ⟨by decide, ?_, by decide⟩
  have hf : fetch_blob_urls testGet testXml "list_c10" =
      .ok (some ["h/good.pdf", "h/bad.docx", "h/good.docx"]) := by decide
  have hd : download_files testGet testPdf testDocx
      (some ["h/good.pdf", "h/bad.docx", "h/good.docx"]) = .error .docxError := by decide
  simp only [process_resume_data, hf, hd]

/-- Concatenating paragraphs that all carry no text yields the empty string. -/
theorem concat_texts_of_all_empty (paras : List String) (h : ∀ p ∈ paras, p = "") :
    concat_texts paras = "" := by
  have hl : (paras.map String.data).flatten = [] := by
    rw [List.flatten_eq_nil_iff]
    intro l hl
    rcases List.mem_map.mp hl with ⟨p, hp, rfl⟩
    rw [h p hp]
  rw [concat_texts, hl]

/-- A non-empty keyword occurs zero times in the empty text. -/
theorem pyCount_in_empty_text (k : String) (hk : k.data ≠ []) :
    pyCount (pyLower "") (pyLower k) = 0 := by
  have h2 : ¬ ((pyLower k).data.isEmpty = true) := by
    show ¬ ((k.data.map Char.toLower).isEmpty = true)
    simp [List.isEmpty_iff, hk]
  rw [pyCount, if_neg h2]
  rfl

/-- The summed hit count over the empty text is zero as long as no keyword is
the empty string. -/
theorem keyword_count_empty_text (keywords : List String)
    (hkw : ∀ k ∈ keywords, k.data ≠ []) : keyword_count "" keywords = 0 := by
  rw [keyword_count]
  refine List.sum_eq_zero ?_
  intro x hx
  rcases List.mem_map.mp hx with ⟨k, hk, rfl⟩
  exact pyCount_in_empty_text k (hkw k hk)

/-- C9 counterexample: an all-empty-paragraph DOCX extracts to the empty
string, but against the keyword list `[""]` the empty string scores `1/2`
(Python counts one occurrence of `""` in `""`), not `0` as the claim states. -/
theorem empty_docx_scored_nonzero_for_empty_keyword :
    extract_text_from_docx testDocx "DOCEMPTY" = .ok "" ∧
    calculate_keyword_existence "" [""] = 1/2 ∧ ((1:ℚ)/2 ≠ 0) := by
  refine ⟨by decide, ?_, by norm_num⟩
  rw [calculate_eq_existence _ _ 1 (by decide)]
  norm_num [existence_of_count]

/-- C9 amended: a DOCX whose paragraphs contain no text extracts to the empty
string (not the `None` absence marker of the PDF path), is kept in the
extracted sequence as an entry with text `""`, is scored by the ordinary
scoring function — which gives `0` whenever no keyword is the empty string —
and can appear in the ranked output. -/
theorem empty_docx_kept_and_scored (docxDoc : String → Except Unit (List String))
    (data : String) (paras : List String) (hp : docxDoc data = .ok paras)
    (hall : ∀ p ∈ paras, p = "") (keywords : List String)
    (hkw : ∀ k ∈ keywords, k.data ≠ []) :
    extract_text_from_docx docxDoc data = .ok "" ∧
    calculate_keyword_existence "" keywords = 0 ∧
    (∀ (get : String → FetchOutcome) (pdfPages : String → Option (List String))
      (url : String) (rest : List String),
      get url = .resp 200 data → pyEndswith (url_filename url) ".pdf" = false →
      pyEndswith (url_filename url) ".docx" = true →
      download_loop get pdfPages docxDoc (url :: rest) =
        (download_loop get pdfPages docxDoc rest).map
          (fun tl => (url_filename url, some "") :: tl)) ∧
    process_resume_data ["fox"] 5 (1/2) testGet testXml testPdf testDocx "list_c9" =
      .ok [("empty.docx", 0)] := by
  have hext : extract_text_from_docx docxDoc data = .ok "" := by
    simp only [extract_text_from_docx, hp]
    rw [concat_texts_of_all_empty paras hall]
  refine ⟨hext, ?_, ?_, ?_⟩
  · rw [calculate_eq_existence _ _ 0 (keyword_count_empty_text keywords hkw)]
    rfl
  · intro get pdfPages url rest hg hpdf hdocx
    simp only [download_loop, hg]
    simp [hpdf, hdocx, hext]
  · have hf : fetch_blob_urls testGet testXml "list_c9" =
        .ok (some ["h/empty.docx"]) := by decide
    have hd : download_files testGet testPdf testDocx (some ["h/empty.docx"]) =
        .ok (some [("empty.docx", some "")]) := by decide
    have hs0 : calculate_keyword_existence "" ["fox"] = 0 := by
      rw [calculate_eq_existence _ _ 0 (by decide)]
      rfl
    have hs : score_all ["fox"] [("empty.docx", some "")] = .ok [("empty.docx", 0)] := by
      simp [score_all, hs0, Except.map]
    have hr : rank [("empty.docx", (0:ℚ))] 5 = [("empty.docx", 0)] := by
      simp [rank, List.insertionSort, List.orderedInsert, pySlice]
    simp only [process_resume_data, hf, hd, hs, hr]

/-- Witness for `empty_docx_kept_and_scored`: the concrete all-empty DOCX of
the test universe, scored against a non-empty keyword. -/
theorem empty_docx_kept_and_scored_witness :
    extract_text_from_docx testDocx "DOCEMPTY" = .ok "" ∧
    calculate_keyword_existence "" ["fox"] = 0 := by
  obtain ⟨h1, h2, -, -⟩ := empty_docx_kept_and_scored testDocx "DOCEMPTY" ["", ""]
    (by decide) (by decide) ["fox"] (by decide)
  exact ⟨h1, h2⟩
